import Mathlib

/-!
Verification of the murilommen/airflow repository fragment.

The fragment contains two whylogs Airflow operators
(`src/airflow/providers/whylogs/operators/whylogs.py`) and a CI console
grouping helper (`src/dev/breeze/src/airflow_breeze/utils/ci_group.py`).
The whylogs library itself is an external collaborator: its reader, writer,
constraint evaluation and report rendering are abstracted into an
environment record of functions, while the operators' own control flow is
embedded faithfully.  External calls are recorded in an event trace so that
statements such as "the profile is never read" are expressible.
-/

/-- Severity of a task logger call (`self.log.error` / `warning` / `info`). -/
inductive LogLevel where
  | error : LogLevel
  | warning : LogLevel
  | info : LogLevel
deriving DecidableEq, Repr

/-- A Python exception as observed by the orchestrator: either the dedicated
`AirflowFailException` raised by the constraints operator, or an arbitrary
error escaping from the external whylogs library. -/
inductive PyException where
  | airflowFailException : String → PyException
  | externalError : String → PyException
deriving DecidableEq, Repr

/-- An opaque whylogs dataset profile view (`DatasetProfileView`), the result
of `why.reader(...).read(path=...).view()`. -/
structure ProfileView where
  id : Nat
deriving DecidableEq, Repr

/-- An opaque whylogs `MetricConstraint`, a single named predicate over one
profile metric. -/
structure MetricConstraint where
  id : Nat
deriving DecidableEq, Repr

/-- An opaque whylogs `Constraints` object (a ConstraintSet): its external
evaluation behaviour is summarised by the boolean that `validate()` returns
and the string that `report()` returns. -/
structure Constraints where
  validateResult : Bool
  reportStr : String
deriving DecidableEq, Repr

/-- A whylogs `ConstraintsBuilder`: holds the profile view it was constructed
with and the (possibly-None) constraints added so far, in order. -/
structure ConstraintsBuilder where
  dataset_profile_view : ProfileView
  added : List (Option MetricConstraint)
deriving DecidableEq, Repr

/-- `builder.add_constraint(c)`: appends the argument to the builder. -/
def ConstraintsBuilder.add_constraint (b : ConstraintsBuilder)
    (c : Option MetricConstraint) : ConstraintsBuilder :=
  { b with added := b.added ++ [c] }

/-- External library calls made by the constraints operator: a profile read
(`why.reader(reader).read(path=path)`) and a constraints build
(`ConstraintsBuilder(view)` + added constraints + `build()`). -/
inductive WhyCall where
  | readCall : Option String → Option String → WhyCall
  | buildCall : ProfileView → List (Option MetricConstraint) → WhyCall
deriving DecidableEq, Repr

/-- Abstract behaviour of the external whylogs library as used by
`WhylogsConstraintsOperator`: what a read of (reader, path) yields, and what
`Constraints` object a builder over a given view with given added
constraints produces on `build()`. -/
structure WhylogsEnv where
  read : Option String → Option String → Except PyException ProfileView
  build : ProfileView → List (Option MetricConstraint) → Constraints

/-- Configuration record of `WhylogsConstraintsOperator.__init__`. -/
structure WhylogsConstraintsOperator where
  profile_path : Option String
  reader : Option String
  constraint : Option MetricConstraint
  constraints : Option Constraints
  break_pipeline : Bool

/-- `WhylogsConstraintsOperator._get_or_create_constraints`: if no pre-built
`Constraints` object was supplied, read the profile, build a constraint set
from it with the single supplied constraint; otherwise return the supplied
object.  The first component records the external calls made. -/
def WhylogsConstraintsOperator._get_or_create_constraints (env : WhylogsEnv)
    (op : WhylogsConstraintsOperator) :
    List WhyCall × Except PyException Constraints :=
  match op.constraints with
  | none =>
    match env.read op.reader op.profile_path with
    | Except.error e => ([WhyCall.readCall op.reader op.profile_path], Except.error e)
    | Except.ok profile_view =>
      let builder : ConstraintsBuilder := ⟨profile_view, []⟩
      let builder := builder.add_constraint op.constraint
      ([WhyCall.readCall op.reader op.profile_path,
        WhyCall.buildCall builder.dataset_profile_view builder.added],
       Except.ok (env.build builder.dataset_profile_view builder.added))
  | some cs => ([], Except.ok cs)

/-- Result of one `WhylogsConstraintsOperator.execute` invocation: the
external calls made, the log lines emitted, and either the returned boolean
or the raised exception. -/
structure ConstraintsExecResult where
  calls : List WhyCall
  logs : List (LogLevel × String)
  outcome : Except PyException Bool
deriving Repr

/-- `WhylogsConstraintsOperator.execute`: resolve the constraint set,
validate it, then log and return/raise according to the result and
`break_pipeline`. -/
def WhylogsConstraintsOperator.execute (env : WhylogsEnv)
    (op : WhylogsConstraintsOperator) : ConstraintsExecResult :=
  match op._get_or_create_constraints env with
  | (calls, Except.error e) => ⟨calls, [], Except.error e⟩
  | (calls, Except.ok constraints) =>
    let result : Bool := constraints.validateResult
    if result = false ∧ op.break_pipeline = true then
      ⟨calls, [(LogLevel.error, constraints.reportStr)],
       Except.error (PyException.airflowFailException "Constraints didn\x27t meet the criteria")⟩
    else if result = false ∧ ¬ op.break_pipeline = true then
      ⟨calls, [(LogLevel.warning, constraints.reportStr)], Except.ok result⟩
    else
      ⟨calls, [(LogLevel.info, constraints.reportStr)], Except.ok result⟩

/-- The whylogs `SummaryDriftReport`, built from the reference view and the
target view. -/
structure SummaryDriftReport where
  ref_view : ProfileView
  target_view : ProfileView
deriving DecidableEq, Repr

/-- External library calls made by the summary drift operator: the two
profile reads and the report write (`report.writer(w).write(dest=d)`). -/
inductive DriftCall where
  | readCall : Option String → String → DriftCall
  | writeCall : Option String → String → SummaryDriftReport → DriftCall
deriving DecidableEq, Repr

/-- Abstract behaviour of the external whylogs library as used by
`WhylogsSummaryDriftOperator`: what a read of (reader, path) yields and
whether a write of a report through (writer, dest) succeeds. -/
structure DriftEnv where
  read : Option String → String → Except PyException ProfileView
  write : Option String → String → SummaryDriftReport → Except PyException Unit

/-- Configuration record of `WhylogsSummaryDriftOperator.__init__`. -/
structure WhylogsSummaryDriftOperator where
  target_profile_path : String
  reference_profile_path : String
  write_report_path : String
  reader : Option String
  writer : Option String

/-- Result of one `WhylogsSummaryDriftOperator.execute` invocation: the
external calls made (in order), the log lines emitted, and either normal
completion (the Python method returns `None`) or the raised exception. -/
structure DriftExecResult where
  calls : List DriftCall
  logs : List (LogLevel × String)
  outcome : Except PyException Unit
deriving Repr

/-- How Python renders an `Optional[str]` inside an f-string, as in
`f"... written to {self.writer}"`. -/
def pyStr : Option String → String
  | none => "None"
  | some s => s

/-- `WhylogsSummaryDriftOperator.execute`: read the reference profile, read
the target profile, build the summary drift report, write it, log one info
line.  Any failing external call aborts the method with that error. -/
def WhylogsSummaryDriftOperator.execute (env : DriftEnv)
    (op : WhylogsSummaryDriftOperator) : DriftExecResult :=
  match env.read op.reader op.reference_profile_path with
  | Except.error e =>
    ⟨[DriftCall.readCall op.reader op.reference_profile_path], [], Except.error e⟩
  | Except.ok reference_view =>
    match env.read op.reader op.target_profile_path with
    | Except.error e =>
      ⟨[DriftCall.readCall op.reader op.reference_profile_path,
        DriftCall.readCall op.reader op.target_profile_path], [], Except.error e⟩
    | Except.ok target_view =>
      let report : SummaryDriftReport := ⟨reference_view, target_view⟩
      match env.write op.writer op.write_report_path report with
      | Except.error e =>
        ⟨[DriftCall.readCall op.reader op.reference_profile_path,
          DriftCall.readCall op.reader op.target_profile_path,
          DriftCall.writeCall op.writer op.write_report_path report], [], Except.error e⟩
      | Except.ok _ =>
        ⟨[DriftCall.readCall op.reader op.reference_profile_path,
          DriftCall.readCall op.reader op.target_profile_path,
          DriftCall.writeCall op.writer op.write_report_path report],
         [(LogLevel.info,
           "Whylogs\x27 summary drift report successfully written to " ++ pyStr op.writer)],
         Except.ok ()⟩

/-- Modelled from the spec: `MessageType` lives in
`airflow_breeze.utils.console`, which is not under src/; the spec describes
it as a severity tag whose value is interpolated into the group start
marker. -/
structure MessageType where
  value : String
deriving DecidableEq, Repr

/-- Process state touched by `ci_group`: the module-level `_in_ci_group`
flag and the lines printed to the console so far.  Modelled from the spec:
`get_console().print` (console module not under src/) appends one line of
output. -/
structure CIState where
  in_ci_group : Bool
  output : List String
deriving DecidableEq, Repr

/-- The process-start state: `_in_ci_group = False` at module load, nothing
printed yet. -/
def initialCIState : CIState :=
  ⟨false, []⟩

/-- `get_console().print(msg)`: appends one line to the console output. -/
def consolePrint (s : CIState) (msg : String) : CIState :=
  { s with output := s.output ++ [msg] }

/-- Ambient environment read by `ci_group`.  `skip_group_putput` is
modelled from the spec: it lives in `airflow_breeze.utils.path_utils`,
which is not under src/; the spec describes it only as an explicit "skip"
override that is either in effect or not, so it is an opaque boolean here.
`github_actions` is `os.environ`'s binding of `GITHUB_ACTIONS` (absent =
`none`). -/
structure CIEnv where
  skip_group_putput : Bool
  github_actions : Option String
deriving DecidableEq, Repr

/-- Outcome of running the wrapped block (or the whole scope): the Python
code either falls through normally or an exception propagates. -/
inductive BlockOutcome where
  | normal : BlockOutcome
  | raised : String → BlockOutcome
deriving DecidableEq, Repr

/-- The wrapped block of a `with ci_group(...)` statement: runs on the
process state and either completes normally or raises. -/
def CIBlock : Type :=
  CIState → CIState × BlockOutcome

/-- A block that prints the given lines, touches nothing else, and returns
normally. -/
def plainBlock (ls : List String) : CIBlock :=
  fun s => ({ s with output := s.output ++ ls }, BlockOutcome.normal)

/-- A block that prints the current value of the `_in_ci_group` flag, used
to observe the flag strictly between the two markers. -/
def flagProbeBlock : CIBlock :=
  fun s =>
    ({ s with output := s.output ++ [if s.in_ci_group then "flag=true" else "flag=false"] },
     BlockOutcome.normal)

/-- The `::group::` start marker, `f"::group::[{message_type.value}]{title}[/]"`. -/
def groupStartMarker (message_type : MessageType) (title : String) : String :=
  "::group::[" ++ message_type.value ++ "]" ++ title ++ "[/]"

/-- The `ci_group` context manager.  If a group is already active, the skip
override is on, or `GITHUB_ACTIONS` (default `"false"`) is not exactly
`"true"`, the block just runs.  Otherwise the flag is set, the start marker
printed, the block run; on normal block exit the end marker is printed and
the flag cleared, while an exception propagates from the `yield` with no
end marker and the flag still set (the generator has no try/finally). -/
def ci_group (env : CIEnv) (title : String) (message_type : MessageType)
    (block : CIBlock) (s : CIState) : CIState × BlockOutcome :=
  if s.in_ci_group = true ∨ env.skip_group_putput = true ∨
      env.github_actions.getD "false" ≠ "true" then
    block s
  else
    let s1 : CIState := { s with in_ci_group := true }
    let s2 : CIState := consolePrint s1 (groupStartMarker message_type title)
    match block s2 with
    | (s3, BlockOutcome.normal) =>
      let s4 : CIState := consolePrint s3 "::endgroup::"
      ({ s4 with in_ci_group := false }, BlockOutcome.normal)
    | (s3, BlockOutcome.raised e) => (s3, BlockOutcome.raised e)

/-- Claim C1: for every `WhylogsConstraintsOperator.execute` invocation whose
resolved constraint set validates to `false` and whose `break_pipeline` flag
is set, `execute` logs the report at error level and raises
`AirflowFailException("Constraints didn't meet the criteria")`, halting the
invocation. -/
theorem constraints_execute_failure_escalates (env : WhylogsEnv)
    (op : WhylogsConstraintsOperator) (c : Constraints) (calls : List WhyCall)
    (hres : op._get_or_create_constraints env = (calls, Except.ok c))
    (hval : c.validateResult = false) (hbp : op.break_pipeline = true) :
    op.execute env =
      ⟨calls, [(LogLevel.error, c.reportStr)],
       Except.error
         (PyException.airflowFailException "Constraints didn\x27t meet the criteria")⟩ := by
  unfold WhylogsConstraintsOperator.execute
  rw [hres]
  simp [hval, hbp]

/-- Witness for C1: a concrete invocation with a failing pre-built constraint
set and `break_pipeline = True` logs at error level and raises. -/
theorem constraints_execute_failure_escalates_witness :
    WhylogsConstraintsOperator.execute
      ⟨fun _ _ => Except.ok ⟨0⟩, fun _ _ => ⟨false, "rep"⟩⟩
      ⟨none, none, none, some ⟨false, "rep"⟩, true⟩ =
      ⟨[], [(LogLevel.error, "rep")],
       Except.error
         (PyException.airflowFailException "Constraints didn\x27t meet the criteria")⟩ :=
  constraints_execute_failure_escalates
    ⟨fun _ _ => Except.ok ⟨0⟩, fun _ _ => ⟨false, "rep"⟩⟩
    ⟨none, none, none, some ⟨false, "rep"⟩, true⟩ ⟨false, "rep"⟩ [] rfl rfl rfl

/-- Claim C2: for every `WhylogsConstraintsOperator.execute` invocation whose
resolved constraint set validates to `true`, `execute` logs the report at
info level and returns `true`, for either value of `break_pipeline`. -/
theorem constraints_execute_pass_returns_true (env : WhylogsEnv)
    (op : WhylogsConstraintsOperator) (c : Constraints) (calls : List WhyCall)
    (hres : op._get_or_create_constraints env = (calls, Except.ok c))
    (hval : c.validateResult = true) :
    op.execute env = ⟨calls, [(LogLevel.info, c.reportStr)], Except.ok true⟩ := by
  unfold WhylogsConstraintsOperator.execute
  rw [hres]
  simp [hval]

/-- Witness for C2: two concrete invocations that differ only in
`break_pipeline` both log at info level and return `true`. -/
theorem constraints_execute_pass_returns_true_witness :
    WhylogsConstraintsOperator.execute
      ⟨fun _ _ => Except.ok ⟨0⟩, fun _ _ => ⟨true, "rep"⟩⟩
      ⟨none, none, none, some ⟨true, "rep"⟩, true⟩ =
      ⟨[], [(LogLevel.info, "rep")], Except.ok true⟩ ∧
    WhylogsConstraintsOperator.execute
      ⟨fun _ _ => Except.ok ⟨0⟩, fun _ _ => ⟨true, "rep"⟩⟩
      ⟨none, none, none, some ⟨true, "rep"⟩, false⟩ =
      ⟨[], [(LogLevel.info, "rep")], Except.ok true⟩ :=
  ⟨constraints_execute_pass_returns_true
      ⟨fun _ _ => Except.ok ⟨0⟩, fun _ _ => ⟨true, "rep"⟩⟩
      ⟨none, none, none, some ⟨true, "rep"⟩, true⟩ ⟨true, "rep"⟩ [] rfl rfl,
   constraints_execute_pass_returns_true
      ⟨fun _ _ => Except.ok ⟨0⟩, fun _ _ => ⟨true, "rep"⟩⟩
      ⟨none, none, none, some ⟨true, "rep"⟩, false⟩ ⟨true, "rep"⟩ [] rfl rfl⟩

/-- Claim C3: for every `WhylogsConstraintsOperator.execute` invocation whose
resolved constraint set validates to `false` and whose `break_pipeline` flag
is not set, `execute` logs the report at warning level, raises nothing, and
returns `false`. -/
theorem constraints_execute_failure_warns (env : WhylogsEnv)
    (op : WhylogsConstraintsOperator) (c : Constraints) (calls : List WhyCall)
    (hres : op._get_or_create_constraints env = (calls, Except.ok c))
    (hval : c.validateResult = false) (hbp : op.break_pipeline = false) :
    op.execute env = ⟨calls, [(LogLevel.warning, c.reportStr)], Except.ok false⟩ := by
  unfold WhylogsConstraintsOperator.execute
  rw [hres]
  simp [hval, hbp]

/-- Witness for C3: a concrete invocation with a failing pre-built constraint
set and `break_pipeline = False` logs at warning level and returns `false`. -/
theorem constraints_execute_failure_warns_witness :
    WhylogsConstraintsOperator.execute
      ⟨fun _ _ => Except.ok ⟨0⟩, fun _ _ => ⟨false, "rep"⟩⟩
      ⟨none, none, none, some ⟨false, "rep"⟩, false⟩ =
      ⟨[], [(LogLevel.warning, "rep")], Except.ok false⟩ :=
  constraints_execute_failure_warns
    ⟨fun _ _ => Except.ok ⟨0⟩, fun _ _ => ⟨false, "rep"⟩⟩
    ⟨none, none, none, some ⟨false, "rep"⟩, false⟩ ⟨false, "rep"⟩ [] rfl rfl rfl

/-- Claim C9: `_get_or_create_constraints` uses a pre-built `Constraints`
object directly when one was supplied, making no read and no build call
(so `profile_path`, `reader` and `constraint` are ignored); otherwise it
reads the profile through the named reader from `profile_path` and builds a
constraint set over that view containing exactly the single supplied
constraint. -/
theorem constraints_resolution_modes (env : WhylogsEnv)
    (op : WhylogsConstraintsOperator) :
    (∀ cs, op.constraints = some cs →
      op._get_or_create_constraints env = ([], Except.ok cs)) ∧
    (op.constraints = none →
      ∀ v, env.read op.reader op.profile_path = Except.ok v →
        op._get_or_create_constraints env =
          ([WhyCall.readCall op.reader op.profile_path,
            WhyCall.buildCall v [op.constraint]],
           Except.ok (env.build v [op.constraint]))) := by
  constructor
  · intro cs hcs
    unfold WhylogsConstraintsOperator._get_or_create_constraints
    rw [hcs]
  · intro hnone v hread
    unfold WhylogsConstraintsOperator._get_or_create_constraints
    rw [hnone, hread]
    rfl

/-- Witness for C9: with a pre-built constraint set the resolver makes no
external call even though the reader would fail, and without one it reads
and builds over the single constraint. -/
theorem constraints_resolution_modes_witness :
    WhylogsConstraintsOperator._get_or_create_constraints
      ⟨fun _ _ => Except.error (PyException.externalError "no read expected"),
       fun _ _ => ⟨true, "built"⟩⟩
      ⟨some "p", some "s3", some ⟨7⟩, some ⟨false, "pre"⟩, false⟩ =
      ([], Except.ok ⟨false, "pre"⟩) ∧
    WhylogsConstraintsOperator._get_or_create_constraints
      ⟨fun _ _ => Except.ok ⟨5⟩, fun _ _ => ⟨true, "built"⟩⟩
      ⟨some "p", some "s3", some ⟨7⟩, none, false⟩ =
      ([WhyCall.readCall (some "s3") (some "p"),
        WhyCall.buildCall ⟨5⟩ [some ⟨7⟩]],
       Except.ok ⟨true, "built"⟩) :=
  ⟨(constraints_resolution_modes
      ⟨fun _ _ => Except.error (PyException.externalError "no read expected"),
       fun _ _ => ⟨true, "built"⟩⟩
      ⟨some "p", some "s3", some ⟨7⟩, some ⟨false, "pre"⟩, false⟩).1 ⟨false, "pre"⟩ rfl,
   (constraints_resolution_modes
      ⟨fun _ _ => Except.ok ⟨5⟩, fun _ _ => ⟨true, "built"⟩⟩
      ⟨some "p", some "s3", some ⟨7⟩, none, false⟩).2 rfl ⟨5⟩ rfl⟩

/-- Claim C7: for every `WhylogsSummaryDriftOperator.execute` invocation
whose two profile reads and report write all succeed, `execute` reads both
profiles through the named reader, writes the summary drift report built
from them to the destination path through the named writer, emits exactly
one info-level log line, and completes without raising (returning nothing
of consequence). -/
theorem summary_drift_success (env : DriftEnv) (op : WhylogsSummaryDriftOperator)
    (rv tv : ProfileView)
    (href : env.read op.reader op.reference_profile_path = Except.ok rv)
    (htgt : env.read op.reader op.target_profile_path = Except.ok tv)
    (hw : env.write op.writer op.write_report_path ⟨rv, tv⟩ = Except.ok ()) :
    op.execute env =
      ⟨[DriftCall.readCall op.reader op.reference_profile_path,
        DriftCall.readCall op.reader op.target_profile_path,
        DriftCall.writeCall op.writer op.write_report_path ⟨rv, tv⟩],
       [(LogLevel.info,
         "Whylogs\x27 summary drift report successfully written to " ++ pyStr op.writer)],
       Except.ok ()⟩ := by
  unfold WhylogsSummaryDriftOperator.execute
  rw [href, htgt]
  simp [hw]

/-- Witness for C7: a concrete invocation with readable profiles and a
writable destination records both reads and the write and logs one info
line. -/
theorem summary_drift_success_witness :
    WhylogsSummaryDriftOperator.execute
      ⟨fun _ p => Except.ok ⟨p.length⟩, fun _ _ _ => Except.ok ()⟩
      ⟨"tgt", "refp", "out.html", some "local", some "local"⟩ =
      ⟨[DriftCall.readCall (some "local") "refp",
        DriftCall.readCall (some "local") "tgt",
        DriftCall.writeCall (some "local") "out.html" ⟨⟨4⟩, ⟨3⟩⟩],
       [(LogLevel.info,
         "Whylogs\x27 summary drift report successfully written to local")],
       Except.ok ()⟩ :=
  summary_drift_success
    ⟨fun _ p => Except.ok ⟨p.length⟩, fun _ _ _ => Except.ok ()⟩
    ⟨"tgt", "refp", "out.html", some "local", some "local"⟩ ⟨4⟩ ⟨3⟩ rfl rfl rfl

/-- Claim C8: for every `WhylogsSummaryDriftOperator.execute` invocation in
which an external read or write call fails, that error propagates unchanged
as the outcome of `execute`, with no translation or retry and no info log
line. -/
theorem summary_drift_error_propagation (env : DriftEnv)
    (op : WhylogsSummaryDriftOperator) (e : PyException) :
    (env.read op.reader op.reference_profile_path = Except.error e →
      op.execute env =
        ⟨[DriftCall.readCall op.reader op.reference_profile_path], [], Except.error e⟩) ∧
    (∀ rv, env.read op.reader op.reference_profile_path = Except.ok rv →
      env.read op.reader op.target_profile_path = Except.error e →
      op.execute env =
        ⟨[DriftCall.readCall op.reader op.reference_profile_path,
          DriftCall.readCall op.reader op.target_profile_path], [], Except.error e⟩) ∧
    (∀ rv tv, env.read op.reader op.reference_profile_path = Except.ok rv →
      env.read op.reader op.target_profile_path = Except.ok tv →
      env.write op.writer op.write_report_path ⟨rv, tv⟩ = Except.error e →
      op.execute env =
        ⟨[DriftCall.readCall op.reader op.reference_profile_path,
          DriftCall.readCall op.reader op.target_profile_path,
          DriftCall.writeCall op.writer op.write_report_path ⟨rv, tv⟩], [],
         Except.error e⟩) := by
  refine ⟨fun href => ?_, fun rv href htgt => ?_, fun rv tv href htgt hw => ?_⟩
  · unfold WhylogsSummaryDriftOperator.execute
    rw [href]
  · unfold WhylogsSummaryDriftOperator.execute
    rw [href, htgt]
  · unfold WhylogsSummaryDriftOperator.execute
    rw [href, htgt]
    simp [hw]

/-- Witness for C8: a concrete invocation whose report write fails ends with
exactly that error and emits no log line. -/
theorem summary_drift_error_propagation_witness :
    WhylogsSummaryDriftOperator.execute
      ⟨fun _ _ => Except.ok ⟨1⟩,
       fun _ _ _ => Except.error (PyException.externalError "disk full")⟩
      ⟨"tgt", "refp", "out.html", some "local", some "s3"⟩ =
      ⟨[DriftCall.readCall (some "local") "refp",
        DriftCall.readCall (some "local") "tgt",
        DriftCall.writeCall (some "s3") "out.html" ⟨⟨1⟩, ⟨1⟩⟩], [],
       Except.error (PyException.externalError "disk full")⟩ :=
  (summary_drift_error_propagation
    ⟨fun _ _ => Except.ok ⟨1⟩,
     fun _ _ _ => Except.error (PyException.externalError "disk full")⟩
    ⟨"tgt", "refp", "out.html", some "local", some "s3"⟩
    (PyException.externalError "disk full")).2.2 ⟨1⟩ ⟨1⟩ rfl rfl rfl

/-- When the guard of `ci_group` holds (group already active, skip override
on, or `GITHUB_ACTIONS` not exactly `"true"`), the scope is the bare block. -/
theorem ci_group_guard_noop (env : CIEnv) (title : String) (mt : MessageType)
    (block : CIBlock) (s : CIState)
    (h : s.in_ci_group = true ∨ env.skip_group_putput = true ∨
      env.github_actions.getD "false" ≠ "true") :
    ci_group env title mt block s = block s := by
  unfold ci_group
  rw [if_pos h]

/-- On the active path, when the block exits normally, `ci_group` appends
the end marker and clears the flag. -/
theorem ci_group_active_normal (env : CIEnv) (title : String) (mt : MessageType)
    (block : CIBlock) (s : CIState)
    (h1 : s.in_ci_group = false) (h2 : env.skip_group_putput = false)
    (h3 : env.github_actions.getD "false" = "true") (s3 : CIState)
    (hb : block (consolePrint { s with in_ci_group := true } (groupStartMarker mt title)) =
      (s3, BlockOutcome.normal)) :
    ci_group env title mt block s =
      (⟨false, s3.output ++ ["::endgroup::"]⟩, BlockOutcome.normal) := by
  unfold ci_group
  rw [if_neg]
  · show (match block (consolePrint { s with in_ci_group := true }
        (groupStartMarker mt title)) with
      | (s3, BlockOutcome.normal) =>
        ({ consolePrint s3 "::endgroup::" with in_ci_group := false },
         BlockOutcome.normal)
      | (s3, BlockOutcome.raised e) => (s3, BlockOutcome.raised e)) = _
    rw [hb]
    rfl
  · push_neg
    exact ⟨by simp [h1], by simp [h2], h3⟩

/-- On the active path, when the block raises, `ci_group` propagates the
exception without printing the end marker or clearing the flag. -/
theorem ci_group_active_raised (env : CIEnv) (title : String) (mt : MessageType)
    (block : CIBlock) (s : CIState)
    (h1 : s.in_ci_group = false) (h2 : env.skip_group_putput = false)
    (h3 : env.github_actions.getD "false" = "true") (s3 : CIState) (e : String)
    (hb : block (consolePrint { s with in_ci_group := true } (groupStartMarker mt title)) =
      (s3, BlockOutcome.raised e)) :
    ci_group env title mt block s = (s3, BlockOutcome.raised e) := by
  unfold ci_group
  rw [if_neg]
  · show (match block (consolePrint { s with in_ci_group := true }
        (groupStartMarker mt title)) with
      | (s3, BlockOutcome.normal) =>
        ({ consolePrint s3 "::endgroup::" with in_ci_group := false },
         BlockOutcome.normal)
      | (s3, BlockOutcome.raised e) => (s3, BlockOutcome.raised e)) = _
    rw [hb]
  · push_neg
    exact ⟨by simp [h1], by simp [h2], h3⟩

/-- Claim C5: whenever a group is already active, or the skip override is in
effect, or the CI-platform indicator is absent or not `"true"`, the
`ci_group` scope is a no-op: it behaves exactly as the bare wrapped block,
so the block still runs, no marker line is printed, and the active flag is
not touched by the scope. -/
theorem ci_group_noop_paths (env : CIEnv) (title : String) (mt : MessageType)
    (block : CIBlock) (s : CIState)
    (h : s.in_ci_group = true ∨ env.skip_group_putput = true ∨
      env.github_actions.getD "false" ≠ "true") :
    ci_group env title mt block s = block s :=
  ci_group_guard_noop env title mt block s h

/-- Witness for C5: concrete no-op entries — group already active, skip
override on, and indicator absent — each produce only the block's own
output and leave the flag as the block left it. -/
theorem ci_group_noop_paths_witness :
    ci_group ⟨false, some "true"⟩ "t" ⟨"info"⟩ (plainBlock ["x"]) ⟨true, []⟩ =
      (⟨true, ["x"]⟩, BlockOutcome.normal) ∧
    ci_group ⟨true, some "true"⟩ "t" ⟨"info"⟩ (plainBlock ["x"]) ⟨false, []⟩ =
      (⟨false, ["x"]⟩, BlockOutcome.normal) ∧
    ci_group ⟨false, none⟩ "t" ⟨"info"⟩ (plainBlock ["x"]) ⟨false, []⟩ =
      (⟨false, ["x"]⟩, BlockOutcome.normal) :=
  ⟨(ci_group_noop_paths ⟨false, some "true"⟩ "t" ⟨"info"⟩ (plainBlock ["x"])
      ⟨true, []⟩ (Or.inl rfl)).trans rfl,
   (ci_group_noop_paths ⟨true, some "true"⟩ "t" ⟨"info"⟩ (plainBlock ["x"])
      ⟨false, []⟩ (Or.inr (Or.inl rfl))).trans rfl,
   (ci_group_noop_paths ⟨false, none⟩ "t" ⟨"info"⟩ (plainBlock ["x"])
      ⟨false, []⟩ (Or.inr (Or.inr (by decide)))).trans rfl⟩

/-- Claim C10: the CI-platform check compares `GITHUB_ACTIONS` (defaulting
to `"false"` when unset) against the exact string `"true"`: whenever the
variable is not bound to exactly `"true"`, the scope takes the no-op path
and prints no markers. -/
theorem ci_group_indicator_exact_match (env : CIEnv) (title : String)
    (mt : MessageType) (block : CIBlock) (s : CIState)
    (h : env.github_actions ≠ some "true") :
    ci_group env title mt block s = block s := by
  apply ci_group_guard_noop
  refine Or.inr (Or.inr ?_)
  cases hg : env.github_actions with
  | none => decide
  | some v =>
    simp only [Option.getD]
    intro hv
    exact h (by rw [hg, hv])

/-- Witness for C10: with `GITHUB_ACTIONS` bound to `"True"` (capitalised,
so not the exact string `"true"`), the scope adds no markers. -/
theorem ci_group_indicator_exact_match_witness :
    ci_group ⟨false, some "True"⟩ "t" ⟨"info"⟩ (plainBlock ["x"]) ⟨false, []⟩ =
      (⟨false, ["x"]⟩, BlockOutcome.normal) :=
  (ci_group_indicator_exact_match ⟨false, some "True"⟩ "t" ⟨"info"⟩
    (plainBlock ["x"]) ⟨false, []⟩ (by decide)).trans rfl

/-- Claim C6: when the indicator is exactly `"true"`, the skip override is
off and no group is active, the scope prints exactly one start marker
(carrying the severity tag and title) before the block's output and exactly
one end marker after it on normal exit; the flag is false before and after
and is observed true by the block strictly between the two markers; and a
nested entry while the flag is active contributes no additional markers. -/
theorem ci_group_marker_pair (env : CIEnv) (title : String) (mt : MessageType)
    (ls : List String) (s : CIState)
    (h1 : s.in_ci_group = false) (h2 : env.skip_group_putput = false)
    (h3 : env.github_actions.getD "false" = "true") :
    ci_group env title mt (plainBlock ls) s =
      (⟨false, s.output ++ [groupStartMarker mt title] ++ ls ++ ["::endgroup::"]⟩,
       BlockOutcome.normal) ∧
    ci_group env title mt flagProbeBlock s =
      (⟨false, s.output ++ [groupStartMarker mt title] ++ ["flag=true"] ++ ["::endgroup::"]⟩,
       BlockOutcome.normal) ∧
    (∀ (title2 : String) (mt2 : MessageType),
      ci_group env title mt (fun st => ci_group env title2 mt2 (plainBlock ls) st) s =
        (⟨false, s.output ++ [groupStartMarker mt title] ++ ls ++ ["::endgroup::"]⟩,
         BlockOutcome.normal)) := by
  refine ⟨?_, ?_, ?_⟩
  · exact ci_group_active_normal env title mt (plainBlock ls) s h1 h2 h3
      ⟨true, s.output ++ [groupStartMarker mt title] ++ ls⟩ rfl
  · exact ci_group_active_normal env title mt flagProbeBlock s h1 h2 h3
      ⟨true, s.output ++ [groupStartMarker mt title] ++ ["flag=true"]⟩ rfl
  · intro title2 mt2
    apply ci_group_active_normal env title mt _ s h1 h2 h3
      ⟨true, s.output ++ [groupStartMarker mt title] ++ ls⟩
    rw [ci_group_guard_noop env title2 mt2 (plainBlock ls) _ (Or.inl rfl)]
    rfl

/-- Witness for C6: a concrete active entry with one line of block output
produces exactly the start marker, the line, and the end marker; the probe
block observes the flag true between the markers; a nested entry adds
nothing. -/
theorem ci_group_marker_pair_witness :
    ci_group ⟨false, some "true"⟩ "build" ⟨"info"⟩ (plainBlock ["work"]) ⟨false, []⟩ =
      (⟨false, ["::group::[info]build[/]", "work", "::endgroup::"]⟩,
       BlockOutcome.normal) ∧
    ci_group ⟨false, some "true"⟩ "build" ⟨"info"⟩ flagProbeBlock ⟨false, []⟩ =
      (⟨false, ["::group::[info]build[/]", "flag=true", "::endgroup::"]⟩,
       BlockOutcome.normal) ∧
    ci_group ⟨false, some "true"⟩ "build" ⟨"info"⟩
        (fun st => ci_group ⟨false, some "true"⟩ "inner" ⟨"error"⟩ (plainBlock ["work"]) st)
        ⟨false, []⟩ =
      (⟨false, ["::group::[info]build[/]", "work", "::endgroup::"]⟩,
       BlockOutcome.normal) := by
  have h := ci_group_marker_pair ⟨false, some "true"⟩ "build" ⟨"info"⟩ ["work"]
    ⟨false, []⟩ rfl rfl rfl
  exact ⟨h.1, h.2.1, h.2.2 "inner" ⟨"error"⟩⟩

/-- Claim C4 counterexample: an exception raised inside the wrapped block of
an opened group leaves the process-wide flag set, so the flag is NOT reset
to false after every exit of a `ci_group` scope. -/
theorem ci_group_exception_leaves_flag_set :
    (ci_group ⟨false, some "true"⟩ "build" ⟨"info"⟩
        (fun st => (st, BlockOutcome.raised "boom")) initialCIState).1.in_ci_group = true := by
  rfl

/-- Claim C4 (amended): the flag is false at process start and is reset to
false after every normal exit of a scope that opened a group; but an
exception raised inside the wrapped block of such a scope propagates with
the state the block left (flag still set, no end marker), so the reset
covers normal exits only. -/
theorem ci_group_flag_reset_on_normal_exit :
    initialCIState.in_ci_group = false ∧
    (∀ (env : CIEnv) (title : String) (mt : MessageType) (block : CIBlock) (s : CIState),
      s.in_ci_group = false → env.skip_group_putput = false →
      env.github_actions.getD "false" = "true" →
      (ci_group env title mt block s).2 = BlockOutcome.normal →
      (ci_group env title mt block s).1.in_ci_group = false) ∧
    (∀ (env : CIEnv) (title : String) (mt : MessageType) (block : CIBlock)
        (s s3 : CIState) (e : String),
      s.in_ci_group = false → env.skip_group_putput = false →
      env.github_actions.getD "false" = "true" →
      block (consolePrint { s with in_ci_group := true } (groupStartMarker mt title)) =
        (s3, BlockOutcome.raised e) →
      ci_group env title mt block s = (s3, BlockOutcome.raised e)) := by
  refine ⟨rfl, ?_, ?_⟩
  · intro env title mt block s h1 h2 h3 hnorm
    rcases hb : block (consolePrint { s with in_ci_group := true }
        (groupStartMarker mt title)) with ⟨s3, o⟩
    cases o with
    | normal =>
      rw [ci_group_active_normal env title mt block s h1 h2 h3 s3 hb]
    | raised e =>
      rw [ci_group_active_raised env title mt block s h1 h2 h3 s3 e hb] at hnorm
      exact absurd hnorm (by simp)
  · intro env title mt block s s3 e h1 h2 h3 hb
    exact ci_group_active_raised env title mt block s h1 h2 h3 s3 e hb

/-- Witness for the amended C4: a concrete normal exit ends with the flag
false, and a concrete raising block ends with the flag still true and no
end marker printed. -/
theorem ci_group_flag_reset_on_normal_exit_witness :
    (ci_group ⟨false, some "true"⟩ "t" ⟨"info"⟩ (plainBlock ["w"])
      initialCIState).1.in_ci_group = false ∧
    ci_group ⟨false, some "true"⟩ "t" ⟨"info"⟩
        (fun st => (st, BlockOutcome.raised "boom")) initialCIState =
      (⟨true, ["::group::[info]t[/]"]⟩, BlockOutcome.raised "boom") :=
  ⟨ci_group_flag_reset_on_normal_exit.2.1 ⟨false, some "true"⟩ "t" ⟨"info"⟩
      (plainBlock ["w"]) initialCIState rfl rfl rfl rfl,
   ci_group_flag_reset_on_normal_exit.2.2 ⟨false, some "true"⟩ "t" ⟨"info"⟩
      (fun st => (st, BlockOutcome.raised "boom")) initialCIState
      ⟨true, ["::group::[info]t[/]"]⟩ "boom" rfl rfl rfl rfl⟩
